import Mathlib

/-!
Verification of the birder repository slice: a session controller wiring a
code editor to an audio engine (useReplContext in strudel-theme.mjs) and a
header toolbar view (Header.jsx). The JavaScript is shallowly embedded:
callbacks become pure functions over explicit state, and external side
effects are recorded in an explicit effect trace. External collaborators
that live outside the repository (the document store, the editor engine)
are modelled from the specification where noted.
-/

namespace Birder

/-! ## JavaScript values and records

Session state arrives from the editor as a JavaScript object; field access
on a missing property yields undefined. We model an object as an
association list from property names to values, and undefined access as a
failed lookup. -/

inductive JsValue where
  | str (s : String)
  | bool (b : Bool)
deriving Repr, DecidableEq

/-- Truthiness of a JavaScript value: the empty string and false are falsy. -/
def JsValue.truthy : JsValue → Bool
  | .str s => !(s == "")
  | .bool b => b

/-- A JavaScript object as an association list of own properties. -/
abbrev ReplState := List (String × JsValue)

/-- Reading property k: undefined (none) when the property is absent. -/
def ReplState.get (st : ReplState) (k : String) : Option JsValue :=
  List.lookup k st

/-- Truthiness of property k of the state: undefined is falsy. -/
def ReplState.truthyProp (st : ReplState) (k : String) : Bool :=
  match st.get k with
  | none => false
  | some v => v.truthy

/-- Initial component state: useState({}) starts from the empty record. -/
def initialReplState : ReplState := []

/-! ## Pattern documents and the document store

Pattern documents ({id, code, collection}) and the userPattern store are
owned by user_pattern_utils.mjs, which is not part of this slice; they are
modelled from the specification (section 6, Document store). -/

/-- Modelled from the spec: the collection identifier of user documents
(userPattern.collection). Example documents carry a different collection. -/
def userCollection : String := "user"

structure PatternData where
  id : Option Nat := none
  collection : String := userCollection
  code : String := ""
deriving Repr, DecidableEq

/-- Modelled from the spec: the persistence backing userPattern, a map from
identifiers to documents plus a counter supplying fresh identifiers. -/
structure PatternStore where
  patterns : List (Nat × PatternData) := []
  nextId : Nat := 0
deriving Repr, DecidableEq

/-- Modelled from the spec: createPatternID returns a fresh identifier not
yet used by any stored document. -/
def createPatternID (s : PatternStore) : Nat × PatternStore :=
  (s.nextId, { s with nextId := s.nextId + 1 })

/-- Modelled from the spec: userPattern.isValidID; the spec says a fresh
identifier is assigned "if none is valid", so an absent identifier is the
invalid case. -/
def isValidID (id : Option Nat) : Bool :=
  id.isSome

/-- Modelled from the spec: userPattern.duplicate(data) creates a new user
document under a fresh identifier holding the given data; it returns the
new id together with the stored record. -/
def PatternStore.duplicate (s : PatternStore) (d : PatternData) :
    Nat × PatternData × PatternStore :=
  let newId := s.nextId
  let doc : PatternData := { d with id := some newId, collection := userCollection }
  (newId, doc, { patterns := (newId, doc) :: s.patterns, nextId := s.nextId + 1 })

/-- Modelled from the spec: userPattern.update(id, data) stores the document
under id, assigning that identifier to it, and returns the stored record. -/
def PatternStore.update (s : PatternStore) (id : Nat) (d : PatternData) :
    PatternData × PatternStore :=
  let doc : PatternData := { d with id := some id }
  (doc, { s with patterns := (id, doc) :: s.patterns })

/-- Store well-formedness: every stored identifier is below the fresh
counter, so the counter always supplies an unused identifier. -/
def StoreWF (s : PatternStore) : Prop :=
  ∀ p ∈ s.patterns, p.1 < s.nextId

instance (s : PatternStore) : Decidable (StoreWF s) := by
  unfold StoreWF; infer_instance

/-! ## Effects

External side effects performed by the controller, recorded as a trace. -/

inductive Effect where
  | broadcast (code : String)
  | persistLatest (code : String)
  | setHash (code : String)
  | setTitle (code : String)
  | setVersionDefaults (code : String)
  | duplicatePattern
  | updatePattern (id : Nat)
  | setViewing (d : PatternData)
  | setActive (id : Option Nat)
  | clearHydra
  | resetGlobalEffects
  | clearCanvas
  | resetLoadedSounds
  | setCps (cps : ℚ)
  | prebake
  | resetVoicings
  | shareCode (code : Option JsValue)
deriving Repr, DecidableEq

/-! ## The session controller

The world visible to the afterEval hook: the viewed document pointer, the
active pattern marker, the persisted latest code, and the document store. -/

structure ReplWorld where
  viewingPatternData : PatternData := {}
  activePattern : Option Nat := none
  latestCode : Option String := none
  store : PatternStore := {}
deriving Repr, DecidableEq

/-- Embedding of the afterEval hook (strudel-theme.mjs lines 133 to 158).
It broadcasts the code to the parent frame, persists it as latest code,
encodes it into the location hash, updates the document title, applies the
version defaults, then forks the viewed example document when its code has
changed or updates the viewed user document in place, and finally marks the
resulting identifier as the active pattern. Returns the new world and the
ordered effect trace. -/
def afterEval (code : String) (w : ReplWorld) : ReplWorld × List Effect :=
  let pre : List Effect := [.broadcast code, .persistLatest code,
    .setHash code, .setTitle code, .setVersionDefaults code]
  let viewing := w.viewingPatternData
  let data : PatternData := { viewing with code := code }
  let id := data.id
  if viewing.collection ≠ userCollection then
    if code ≠ viewing.code then
      let dup := w.store.duplicate data
      ({ w with latestCode := some code, viewingPatternData := dup.2.1,
                store := dup.2.2, activePattern := some dup.1 },
       pre ++ [.duplicatePattern, .setViewing dup.2.1, .setActive (some dup.1)])
    else
      ({ w with latestCode := some code, activePattern := id },
       pre ++ [.setActive id])
  else
    let idStore := if isValidID id then (id.getD 0, w.store) else createPatternID w.store
    let upd := idStore.2.update idStore.1 data
    ({ w with latestCode := some code, viewingPatternData := upd.1,
              store := upd.2, activePattern := some idStore.1 },
     pre ++ [.updatePattern idStore.1, .setViewing upd.1, .setActive (some idStore.1)])

/-- Embedding of the onToggle hook (lines 127 to 131): when play stops, the
hydra visual resource is released; nothing happens when play starts. -/
def onToggle (playing : Bool) : List Effect :=
  if playing then [] else [.clearHydra]

/-- Embedding of the onUpdateState hook (lines 124 to 126): the mirrored
component state is replaced by a shallow copy of the notified state. -/
def onUpdateState (_prev : ReplState) (state : ReplState) : ReplState :=
  state

/-- The mirrored state after a sequence of update notifications. -/
def applyUpdates (init : ReplState) (updates : List ReplState) : ReplState :=
  updates.foldl onUpdateState init

/-- Embedding of resetEditor (lines 277 to 285). The voicings reset runs
only when the tonal module resolved; the six other effects run
unconditionally. -/
def resetEditor (tonalLoaded : Bool) : List Effect :=
  (if tonalLoaded then [Effect.resetVoicings] else []) ++
  [.resetGlobalEffects, .clearCanvas, .clearHydra, .resetLoadedSounds,
   .setCps (1/2 : ℚ), .prebake]

/-- Embedding of the settings propagation effect (lines 257 to 266): for
each key of the recognized settings enumeration, copy the observed value
when the observed settings own that key. -/
def forwardSettings (recognizedKeys : List String)
    (observed : List (String × JsValue)) : List (String × JsValue) :=
  recognizedKeys.filterMap fun key => (List.lookup key observed).map fun v => (key, v)

/-- Embedding of handleShare (line 311): the code property of the mirrored
session state is handed to shareCode. -/
def handleShare (replState : ReplState) : Effect :=
  .shareCode (replState.get "code")

/-- Modelled from the spec: the session-state snapshot record carries the
fields started, pending, isDirty, activeCode and error (spec section 3). -/
def sessionFields : List String :=
  ["started", "pending", "isDirty", "activeCode", "error"]

/-- A state object shaped as the spec describes the session snapshot. -/
def IsSessionState (st : ReplState) : Prop :=
  ∀ kv ∈ st, kv.1 ∈ sessionFields

instance (st : ReplState) : Decidable (IsSessionState st) := by
  unfold IsSessionState; infer_instance

/-! ## The header toolbar view

Embedding of Header.jsx. The cx helper joins class fragments, dropping the
falsy ones; we keep each fragment as a list element so that presence of a
class string in the rendered element is list membership. -/

def cx (parts : List (Option String)) : List String :=
  parts.filterMap id

inductive PlayButtonContent where
  | loading
  | iconLabel (icon : String) (label : Option String)
deriving Repr, DecidableEq

structure ButtonRow where
  playClasses : List String
  playTitle : String
  playContent : PlayButtonContent
  updateClasses : List String
  updateLabel : Option String
deriving Repr, DecidableEq

structure HeaderView where
  logoClasses : List String
  buttons : Option ButtonRow
deriving Repr, DecidableEq

/-- Embedding of the button row of Header.jsx (lines 66 to 99): the
play/stop button and the update button, with the class lists computed by
the cx calls of the source. -/
def renderButtonRow (st : ReplState) (isCSSAnimationDisabled isEmbedded : Bool) :
    ButtonRow :=
  let started := st.truthyProp "started"
  let pending := st.truthyProp "pending"
  let isDirty := st.truthyProp "isDirty"
  let activeCode := st.truthyProp "activeCode"
  { playClasses := cx [some (if !isEmbedded then "p-2" else "px-2"),
      some "hover:opacity-50",
      if !started && !isCSSAnimationDisabled then some "animate-pulse" else none],
    playTitle := if started then "stop" else "play",
    playContent :=
      if !pending then
        .iconLabel (if started then "StopCircleIcon" else "PlayCircleIcon")
          (if !isEmbedded then some (if started then "stop" else "play") else none)
      else .loading,
    updateClasses := cx [some "flex items-center space-x-1",
      some (if !isEmbedded then "p-2" else "px-2"),
      some (if !isDirty || !activeCode then "opacity-50" else "hover:opacity-50")],
    updateLabel := if !isEmbedded then some "update" else none }

/-- Embedding of Header.jsx: the spinning logo element (lines 43 to 57) and
the button row, which is present only outside zen mode and when the button
row is not hidden (line 66). -/
def renderHeader (st : ReplState)
    (isZen isButtonRowHidden isCSSAnimationDisabled isEmbedded : Bool) : HeaderView :=
  let started := st.truthyProp "started"
  { logoClasses := cx [some "mt-[1px]",
      if started && !isCSSAnimationDisabled then some "animate-spin" else none,
      some "cursor-pointer text-blue-500",
      if isZen then some "fixed top-2 right-4" else none],
    buttons :=
      if !isZen && !isButtonRowHidden then
        some (renderButtonRow st isCSSAnimationDisabled isEmbedded)
      else none }

/-! ## Concrete worlds used by witnesses -/

/-- A world viewing an example document, with an empty user store. -/
def exampleWorld : ReplWorld :=
  { viewingPatternData := { id := some 1, collection := "examples", code := "a" },
    activePattern := some 1, latestCode := none,
    store := { patterns := [], nextId := 0 } }

/-- A world viewing a user document whose identifier is valid. -/
def userWorld : ReplWorld :=
  { viewingPatternData := { id := some 5, collection := userCollection, code := "a" },
    activePattern := some 5, latestCode := none,
    store := { patterns := [(5, { id := some 5, collection := userCollection,
                                  code := "a" })], nextId := 6 } }

/-- A world viewing a user document that carries no identifier. -/
def invalidUserWorld : ReplWorld :=
  { viewingPatternData := { id := none, collection := userCollection, code := "a" } }

/-! ## Helper lemmas -/

theorem lookup_none_of_forall {α β : Type} [BEq α] [LawfulBEq α]
    (k : α) (l : List (α × β)) (h : ∀ kv ∈ l, kv.1 ≠ k) :
    List.lookup k l = none := by
  induction l with
  | nil => rfl
  | cons hd tl ih =>
    have h1 : hd.1 ≠ k := h hd (List.mem_cons_self hd tl)
    have hb : (k == hd.1) = false := beq_eq_false_iff_ne.mpr fun he => h1 he.symm
    rw [show hd = (hd.1, hd.2) from rfl]
    simp only [List.lookup, hb]
    exact ih fun kv hv => h kv (List.mem_cons_of_mem hd hv)

/-! ## Theorems for the claims -/

/-- Claim C8: every on-toggle notification releases the secondary visual
resource (clearHydra) exactly once when the play state transitions to
stopped, and never when it transitions to started. -/
theorem onToggle_release_count (playing : Bool) :
    (onToggle playing).count Effect.clearHydra = if playing then 0 else 1 := by
  cases playing <;> rfl

/-- Claim C6: every invocation of the reset action performs, regardless of
prior state (here: whether the tonal module resolved), all of the global
effects reset, canvas clear, hydra release, loaded-sample reset, clock-rate
reset to 0.5 cps and preload re-priming. -/
theorem resetEditor_unconditional (tonalLoaded : Bool) :
    Effect.resetGlobalEffects ∈ resetEditor tonalLoaded ∧
    Effect.clearCanvas ∈ resetEditor tonalLoaded ∧
    Effect.clearHydra ∈ resetEditor tonalLoaded ∧
    Effect.resetLoadedSounds ∈ resetEditor tonalLoaded ∧
    Effect.setCps (1/2 : ℚ) ∈ resetEditor tonalLoaded ∧
    Effect.prebake ∈ resetEditor tonalLoaded := by
  cases tonalLoaded <;> simp [resetEditor]

/-- Claim C4: the object forwarded to the editor settings-update entry
point contains a binding exactly for the recognized keys that the observed
settings own, with the observed values; foreign keys never appear. -/
theorem forwardSettings_exact (recognizedKeys : List String)
    (observed : List (String × JsValue)) (k : String) (v : JsValue) :
    (k, v) ∈ forwardSettings recognizedKeys observed ↔
      k ∈ recognizedKeys ∧ List.lookup k observed = some v := by
  simp only [forwardSettings, List.mem_filterMap, Option.map_eq_some',
    Prod.mk.injEq]
  constructor
  · rintro ⟨a, ha, w, hw, rfl, rfl⟩
    exact ⟨ha, hw⟩
  · rintro ⟨hk, hv⟩
    exact ⟨k, hk, v, hv, rfl, rfl⟩

/-- Claim C3, counterexample: a field present in the previously mirrored
snapshot but absent from the notified state does not survive the update, so
the no-deletion half of the claim fails. -/
theorem onUpdateState_deletes_field :
    ReplState.get [("error", JsValue.str "boom")] "error" =
      some (JsValue.str "boom") ∧
    ReplState.get (onUpdateState [("error", JsValue.str "boom")] []) "error" =
      none := by
  constructor <;> rfl

/-- Claim C3 as amended: after any sequence of update notifications ending
in S, the mirrored snapshot is exactly the shallow copy of S: every
property reads as in S, and nothing from earlier snapshots is retained. -/
theorem onUpdateState_wholesale (init : ReplState) (us : List ReplState)
    (s : ReplState) :
    applyUpdates init (us ++ [s]) = s ∧
    ∀ k, ReplState.get (applyUpdates init (us ++ [s])) k = ReplState.get s k := by
  have h : applyUpdates init (us ++ [s]) = s := by
    simp [applyUpdates, List.foldl_append, onUpdateState]
  exact ⟨h, fun k => by rw [h]⟩

/-- Claim C5 (code bug): under the session-state record shape given by the
spec, the share action always hands undefined to shareCode, because the
snapshot owns no code property; the code text lives in activeCode. -/
theorem handleShare_shares_undefined (st : ReplState) (h : IsSessionState st) :
    handleShare st = Effect.shareCode none := by
  unfold handleShare ReplState.get
  rw [lookup_none_of_forall]
  intro kv hv hk
  have hmem := h kv hv
  rw [hk] at hmem
  simp [sessionFields] at hmem

/-- Witness for C5: a session snapshot whose activeCode is the text a still
shares undefined. -/
theorem handleShare_shares_undefined_witness :
    handleShare [("activeCode", JsValue.str "a")] = Effect.shareCode none ∧
    ReplState.get [("activeCode", JsValue.str "a")] "activeCode" =
      some (JsValue.str "a") :=
  ⟨handleShare_shares_undefined [("activeCode", JsValue.str "a")] (by decide), rfl⟩

/-- Claim C10: before any update notification the mirrored state is the
empty record (every session field reads undefined), so the toolbar renders
the play affordance with no loading indicator and a dimmed update
control. -/
theorem initial_toolbar (isCSSAnimationDisabled isEmbedded : Bool) :
    (∀ k ∈ sessionFields, ReplState.get initialReplState k = none) ∧
    (renderHeader initialReplState false false isCSSAnimationDisabled
        isEmbedded).buttons =
      some (renderButtonRow initialReplState isCSSAnimationDisabled isEmbedded) ∧
    (renderButtonRow initialReplState isCSSAnimationDisabled
        isEmbedded).playTitle = "play" ∧
    (renderButtonRow initialReplState isCSSAnimationDisabled
        isEmbedded).playContent =
      PlayButtonContent.iconLabel "PlayCircleIcon"
        (if isEmbedded then none else some "play") ∧
    "opacity-50" ∈ (renderButtonRow initialReplState isCSSAnimationDisabled
        isEmbedded).updateClasses := by
  cases isCSSAnimationDisabled <;> cases isEmbedded <;> decide

/-- Claim C9, counterexample: with the session started and CSS animation
enabled, the play/stop button does not carry the spinning class; the
animate-spin class sits on the header logo element instead. -/
theorem playButton_never_spins :
    ReplState.truthyProp [("started", JsValue.bool true)] "started" = true ∧
    (renderHeader [("started", JsValue.bool true)] false false false
        false).buttons =
      some (renderButtonRow [("started", JsValue.bool true)] false false) ∧
    "animate-spin" ∉
      (renderButtonRow [("started", JsValue.bool true)] false false).playClasses ∧
    "animate-spin" ∈
      (renderHeader [("started", JsValue.bool true)] false false false
        false).logoClasses := by
  decide

/-- Claim C9 as amended: the update control is dimmed exactly when isDirty
is falsy or activeCode is falsy, and the spinning indicator is rendered on
the header logo element, not on the play/stop button, exactly when the
session is started and CSS animation is not disabled. -/
theorem header_dim_and_spin (st : ReplState)
    (isZen isButtonRowHidden isCSSAnimationDisabled isEmbedded : Bool) :
    ("opacity-50" ∈
        (renderButtonRow st isCSSAnimationDisabled isEmbedded).updateClasses ↔
      (st.truthyProp "isDirty" = false ∨ st.truthyProp "activeCode" = false)) ∧
    ("animate-spin" ∈
        (renderHeader st isZen isButtonRowHidden isCSSAnimationDisabled
          isEmbedded).logoClasses ↔
      (st.truthyProp "started" = true ∧ isCSSAnimationDisabled = false)) ∧
    "animate-spin" ∉
      (renderButtonRow st isCSSAnimationDisabled isEmbedded).playClasses := by
  cases h1 : st.truthyProp "isDirty" <;>
    cases h2 : st.truthyProp "activeCode" <;>
      cases h3 : st.truthyProp "started" <;>
        cases isZen <;> cases isCSSAnimationDisabled <;> cases isEmbedded <;>
          simp [renderButtonRow, renderHeader, cx, h1, h2, h3]

/-- Claim C1: when the viewed document is not in the user collection, an
after-evaluate with changed code creates a fresh user document holding the
code, which becomes both the viewed pointer and the active pattern; with
unchanged code the store is untouched and the active pattern becomes the
existing identifier of the example document. -/
theorem afterEval_example (code : String) (w : ReplWorld)
    (hex : w.viewingPatternData.collection ≠ userCollection)
    (hwf : StoreWF w.store) :
    (code ≠ w.viewingPatternData.code →
      (afterEval code w).1.viewingPatternData =
        { w.viewingPatternData with
          id := some w.store.nextId,
          collection := userCollection,
          code := code } ∧
      List.lookup w.store.nextId w.store.patterns = none ∧
      List.lookup w.store.nextId (afterEval code w).1.store.patterns =
        some { w.viewingPatternData with
               id := some w.store.nextId,
               collection := userCollection,
               code := code } ∧
      (afterEval code w).1.activePattern = some w.store.nextId) ∧
    (code = w.viewingPatternData.code →
      (afterEval code w).1.store = w.store ∧
      (afterEval code w).1.activePattern = w.viewingPatternData.id) := by
  simp only [afterEval]
  rw [if_pos hex]
  constructor
  · intro hne
    rw [if_pos hne]
    refine ⟨rfl, ?_, ?_, rfl⟩
    · exact lookup_none_of_forall _ _ fun kv hv => Nat.ne_of_lt (hwf kv hv)
    · simp [PatternStore.duplicate, List.lookup]
  · intro heq
    rw [if_neg (not_not_intro heq)]
    exact ⟨rfl, rfl⟩

/-- Witness for C1: evaluating b over an example document with code a forks
a fresh user document carrying b and activates it; evaluating a leaves the
store unchanged. -/
theorem afterEval_example_witness :
    ((afterEval "b" exampleWorld).1.activePattern = some 0 ∧
      List.lookup 0 (afterEval "b" exampleWorld).1.store.patterns =
        some { id := some 0, collection := userCollection, code := "b" }) ∧
    ((afterEval "a" exampleWorld).1.store = exampleWorld.store ∧
      (afterEval "a" exampleWorld).1.activePattern = some 1) := by
  have hb := (afterEval_example "b" exampleWorld (by decide) (by decide)).1
    (by decide)
  have ha := (afterEval_example "a" exampleWorld (by decide) (by decide)).2 rfl
  exact ⟨⟨hb.2.2.2, hb.2.2.1⟩, ha⟩

/-- Claim C2, counterexample: a viewed user document without a valid
identifier does not keep its identifier on after-evaluate; a fresh
identifier is created and activated, so the claim as stated fails. -/
theorem afterEval_user_invalid_id :
    invalidUserWorld.viewingPatternData.collection = userCollection ∧
    invalidUserWorld.viewingPatternData.code = "a" ∧
    (afterEval "a" invalidUserWorld).1.activePattern ≠
      invalidUserWorld.viewingPatternData.id ∧
    (afterEval "a" invalidUserWorld).1.store.nextId ≠
      invalidUserWorld.store.nextId := by
  decide

/-- Claim C2 as amended: on after-evaluate over a viewed user document the
viewed document code becomes the evaluated code; a valid identifier is kept,
stored under and activated with no fresh identifier drawn, while a missing
identifier is replaced by a fresh one that is activated. -/
theorem afterEval_user (code : String) (w : ReplWorld)
    (huser : w.viewingPatternData.collection = userCollection) :
    (afterEval code w).1.viewingPatternData.code = code ∧
    (∀ i, w.viewingPatternData.id = some i →
      (afterEval code w).1.activePattern = some i ∧
      (afterEval code w).1.store.nextId = w.store.nextId ∧
      List.lookup i (afterEval code w).1.store.patterns =
        some { w.viewingPatternData with code := code }) ∧
    (w.viewingPatternData.id = none →
      (afterEval code w).1.activePattern = some w.store.nextId ∧
      (afterEval code w).1.store.nextId = w.store.nextId + 1) := by
  simp only [afterEval]
  rw [if_neg (not_not_intro huser)]
  refine ⟨?_, ?_, ?_⟩
  · split <;> rfl
  · intro i hi
    simp [hi, isValidID, PatternStore.update, List.lookup]
  · intro h0
    simp [h0, isValidID, createPatternID, PatternStore.update]

/-- Witness for C2 as amended: a user document with identifier 5 and code a
evaluated with b keeps identifier 5, stores the new code under it and draws
no fresh identifier. -/
theorem afterEval_user_witness :
    (afterEval "b" userWorld).1.viewingPatternData.code = "b" ∧
    (afterEval "b" userWorld).1.activePattern = some 5 ∧
    (afterEval "b" userWorld).1.store.nextId = userWorld.store.nextId := by
  have h := afterEval_user "b" userWorld rfl
  exact ⟨h.1, (h.2.1 5 rfl).1, (h.2.1 5 rfl).2.1⟩

/-- Claim C7: the after-evaluate effect trace starts with the broadcast,
latest-code persistence, location-hash encoding and title update for the
evaluated code in that order, continues with the version-defaults
application and the fork-or-update effects on the viewed document, and ends
with the activation of the resulting identifier, which matches the active
pattern of the resulting state. -/
theorem afterEval_effect_order (code : String) (w : ReplWorld) :
    ∃ mid lastId,
      (afterEval code w).2 =
        Effect.broadcast code :: Effect.persistLatest code ::
        Effect.setHash code :: Effect.setTitle code ::
        Effect.setVersionDefaults code :: (mid ++ [Effect.setActive lastId]) ∧
      (afterEval code w).1.activePattern = lastId ∧
      ∀ e ∈ mid, e = Effect.duplicatePattern ∨
        (∃ i, e = Effect.updatePattern i) ∨ (∃ d, e = Effect.setViewing d) := by
  simp only [afterEval]
  split
  · split
    · refine ⟨[Effect.duplicatePattern,
        Effect.setViewing (PatternStore.duplicate w.store
          { w.viewingPatternData with code := code }).2.1], _, rfl, rfl, ?_⟩
      intro e he
      simp only [List.mem_cons, List.not_mem_nil, or_false] at he
      rcases he with rfl | rfl
      · exact Or.inl rfl
      · exact Or.inr (Or.inr ⟨_, rfl⟩)
    · exact ⟨[], _, rfl, rfl, by intro e he; cases he⟩
  · refine ⟨[Effect.updatePattern _, Effect.setViewing _], _, rfl, rfl, ?_⟩
    intro e he
    simp only [List.mem_cons, List.not_mem_nil, or_false] at he
    rcases he with rfl | rfl
    · exact Or.inr (Or.inl ⟨_, rfl⟩)
    · exact Or.inr (Or.inr ⟨_, rfl⟩)

end Birder
